import Mathlib

/-!
Shallow embedding of `src/react/types/types.ts` of apollo-client (the react
binding's type declarations) and of the small behavioural fragments of the
spec that the declared types constrain.

Conventions of the embedding:
* a TypeScript optional member `x?: T` becomes a field `x : Option T`;
* a TypeScript union of two types `A | B` becomes `A ⊕ B`;
* a TypeScript tuple type `[A, B]` becomes `A × B`;
* a TypeScript function type `(a?: A) => R` becomes `Option A → R`, and
  `void` becomes `Unit`;
* a TypeScript intersection `A & B` of object types becomes a product (or a
  structure holding both parts, for an intersection of call signatures);
* types the file imports from elsewhere in the repository (not part of the
  file under verification) are modelled from the spec where the spec
  describes them, and as simple opaque-use placeholders otherwise.
-/

/-! ## Placeholders for imported external types -/

/-- Placeholder for a runtime value of TypeScript type `any` (a dynamic,
JSON-like value). Claims use it opaquely. -/
inductive TSAny : Type where
  | null : TSAny
  | boolean : Bool → TSAny
  | number : Int → TSAny
  | string : String → TSAny
  | list : List TSAny → TSAny

/-- TypeScript `Record<string, V>`: a string-keyed dictionary, modelled as an
association list. -/
def TSRecord (V : Type) : Type := List (String × V)

/-- The empty-object type `{}` of TypeScript, modelled as the one-value
record with no fields. -/
abbrev TSEmptyObject : Type := Unit

/-- `Context = Record<string, any>` (line 25 of the source). -/
def Context : Type := TSRecord TSAny

/-- `OperationVariables = Record<string, any>` (imported from core/types,
used as the default for the `TVariables` parameters). -/
def OperationVariables : Type := TSRecord TSAny

/-- Placeholder for `DocumentNode` of the external graphql package: a parsed
GraphQL document. Claims use it opaquely. -/
structure DocumentNode : Type where
  body : String
  deriving DecidableEq

/-- Placeholder for `GraphQLError` of the external graphql package: one
application-level error. -/
structure GraphQLError : Type where
  message : String
  deriving DecidableEq

/-- Modelled from the spec: a transport-level failure, no response received
(error taxonomy of §7). -/
structure NetworkError : Type where
  message : String
  deriving DecidableEq

/-- Modelled from the spec: `ApolloError` is the binding-level `CombinedError`
of §7, unifying a possible network error with the GraphQL-layer errors. The
class itself lives in errors/ApolloError.ts, outside the file under
verification. -/
structure ApolloError : Type where
  message : String
  graphQLErrors : List GraphQLError
  networkError : Option NetworkError
  deriving DecidableEq

/-- Modelled from the spec: `NetworkStatus`, "an enumerated finer-grained
status: idle/setVariables/fetchMore/poll/refetch/ready/error" (§3). The enum
itself lives in core/networkStatus.ts, outside the file under verification. -/
inductive NetworkStatus : Type where
  | idle : NetworkStatus
  | setVariables : NetworkStatus
  | fetchMore : NetworkStatus
  | poll : NetworkStatus
  | refetch : NetworkStatus
  | ready : NetworkStatus
  | error : NetworkStatus
  deriving DecidableEq

/-- Modelled from the spec: the fetch-policy strategies of the Glossary
(cache-first, network-only, cache-and-network, cache-only). The type itself
lives in core/watchQueryOptions.ts, outside the file under verification. -/
inductive FetchPolicy : Type where
  | cacheFirst : FetchPolicy
  | networkOnly : FetchPolicy
  | cacheAndNetwork : FetchPolicy
  | cacheOnly : FetchPolicy
  deriving DecidableEq

/-- Placeholder for `WatchQueryFetchPolicy` (core/watchQueryOptions.ts, not
part of the file under verification): the fetch policies a watched query
accepts. Claims use it opaquely. -/
def WatchQueryFetchPolicy : Type := FetchPolicy

/-- Modelled from the spec: the error-policy values `none`/`ignore`/`all` of
§4.1. The type itself lives in core/watchQueryOptions.ts, outside the file
under verification. -/
inductive ErrorPolicy : Type where
  | nonePolicy : ErrorPolicy
  | ignore : ErrorPolicy
  | all : ErrorPolicy
  deriving DecidableEq

/-- Placeholder for `ApolloClient<TCacheShape>`: the engine object. Claims
use it opaquely. -/
structure ApolloClient (TCacheShape : Type) : Type where
  cache : TCacheShape

/-- TypeScript `object` as a type argument (`ApolloClient<object>`),
modelled as a string-keyed record. -/
def TSObject : Type := TSRecord TSAny

/-- A settled promise of a `α`: it resolved with an `α` or rejected with a
dynamic reason. Scheduling is outside the scope of the declarations file;
claims only speak about which promise type an operation returns. -/
structure Promise (α : Type) : Type where
  outcome : Except TSAny α

/-- Modelled from the spec: the result record an engine-level query settles
with (`refetch`/`fetchMore` of §6 return a `Promise<Result>`). The concrete
`ApolloQueryResult` lives in core/types.ts, outside the file under
verification; claims use it opaquely. -/
structure ApolloQueryResult (TData : Type) : Type where
  data : Option TData
  errors : List GraphQLError
  loading : Bool
  networkStatus : NetworkStatus

/-- Placeholder for `PureQueryOptions` (core/types.ts, not part of the file
under verification): one refetchable query descriptor given as a full
options record. Claims use it opaquely. -/
structure PureQueryOptions : Type where
  query : DocumentNode
  «variables» : Option Context

/-- Placeholder for `FetchResult<TData>` (link/core, not part of the file
under verification): the link layer's execution result. Claims use it
opaquely. -/
structure FetchResult (TData : Type) : Type where
  data : Option TData
  errors : Option (List GraphQLError)
  extensions : Option Context
  context : Option Context

/-- Placeholder for the cache proxy a mutation updater receives. -/
structure DataProxy : Type where
  snapshot : TSObject

/-- `MutationUpdaterFn<TData>` (core/watchQueryOptions.ts, not part of the
file under verification). Modelled from the spec: "a caller-supplied
function invoked exactly once per settled mutation ... to apply
side-effecting adjustments to shared query state" (§4.2); it receives the
cache proxy and the mutation's result. -/
def MutationUpdaterFn (TData : Type) : Type :=
  DataProxy → FetchResult TData → Unit

/-- Modelled from the spec: options of `subscribeToMore` — "attaches a
secondary live subscription whose incoming events are folded into this
query's `data`" (§4.1). The concrete type lives outside the file under
verification; claims use it opaquely. -/
structure SubscribeToMoreOptions : Type where
  document : DocumentNode
  «variables» : Option Context

/-- `FetchMoreQueryOptions<TVariables, K>` (core/watchQueryOptions.ts, not
part of the file under verification). Modelled from the spec: `fetchMore`
"issues a secondary request under possibly-different variables" (§4.1). The
type-level refinement `K extends keyof TVariables` (the call may pass any
subset of the variables record) is not expressible in a shallow embedding;
the variables override is carried whole. -/
structure FetchMoreQueryOptions (TVariables : Type) : Type where
  «variables» : Option TVariables
  context : Option Context

/-- `FetchMoreOptions<TData, TVariables>` (core/ObservableQuery.ts, not part
of the file under verification). Modelled from the spec: the result of the
secondary request is merged "into the existing result via a caller-supplied
or default merge strategy" (§4.1): the strategy maps the previous data and
the (possibly absent) fetched page, under the variables used, to the merged
data. -/
structure FetchMoreOptions (TData TVariables : Type) : Type where
  updateQuery : Option (TData → Option TData × Option TVariables → TData)

/-! ## Common types (lines 23–35 of the source) -/

/-- `ExecutionResult<T>` (lines 27–31): `data?: T`,
`extensions?: Record<string, any>`, `errors?: GraphQLError[]`. -/
structure ExecutionResult (T : Type) : Type where
  data : Option T
  extensions : Option Context
  errors : Option (List GraphQLError)

/-- `CommonOptions<TOptions> = TOptions & { client?: ApolloClient<object> }`
(lines 33–35): the intersection with a one-field object type is a product
with that optional field. -/
def CommonOptions (TOptions : Type) : Type :=
  TOptions × Option (ApolloClient TSObject)

/-! ## Query types (lines 37–135 of the source) -/

/-- `BaseQueryOptions<TVariables>` (lines 39–50). -/
structure BaseQueryOptions (TVariables : Type) : Type where
  ssr : Option Bool
  «variables» : Option TVariables
  fetchPolicy : Option WatchQueryFetchPolicy
  errorPolicy : Option ErrorPolicy
  pollInterval : Option Nat
  client : Option (ApolloClient TSAny)
  notifyOnNetworkStatusChange : Option Bool
  context : Option Context
  partialRefetch : Option Bool
  returnPartialData : Option Bool

/-- `QueryFunctionOptions<TData, TVariables>` (lines 52–60), extending
`BaseQueryOptions<TVariables>`. -/
structure QueryFunctionOptions (TData TVariables : Type) extends BaseQueryOptions TVariables where
  displayName : Option String
  skip : Option Bool
  onCompleted : Option (TData → Unit)
  onError : Option (ApolloError → Unit)

/-- The intersection of the two call signatures of `fetchMore`
(lines 71–81): a same-type call over the binding's own
`TData`/`TVariables`, and a generic cross-type call that may carry a
`query?: DocumentNode` and is typed over fresh `TData2`/`TVariables2`. A
TypeScript intersection of two call signatures is a value callable both
ways, i.e. a pair of functions. -/
structure FetchMoreCallable (TData TVariables : Type) : Type 1 where
  sameType :
    FetchMoreQueryOptions TVariables × FetchMoreOptions TData TVariables →
      Promise (ApolloQueryResult TData)
  crossType :
    (TData2 TVariables2 : Type) →
      Option DocumentNode × FetchMoreQueryOptions TVariables2 ×
        FetchMoreOptions TData2 TVariables2 →
      Promise (ApolloQueryResult TData2)

/-- `ObservableQueryFields<TData, TVariables>` (lines 62–82):
`Pick<ObservableQuery, 'startPolling' | 'stopPolling' | 'subscribeToMore' |
'updateQuery' | 'refetch' | 'variables'>` intersected with the `fetchMore`
member. `ObservableQuery` lives in core/ObservableQuery.ts, outside the file
under verification; the six picked members are modelled from the spec's §6
engine interface (`startPolling(ms)`, `stopPolling()`, `refetch(variables?)
→ Promise<Result>`, `subscribe`-style attachment returning a disposer) and
§4.1 (`updateQuery(updaterFn)` synchronously transforms the last-known
data). -/
structure ObservableQueryFields (TData TVariables : Type) : Type 1 where
  startPolling : Nat → Unit
  stopPolling : Unit → Unit
  subscribeToMore : SubscribeToMoreOptions → (Unit → Unit)
  updateQuery : (TData × Option TVariables → TData) → Unit
  refetch : Option TVariables → Promise (ApolloQueryResult TData)
  «variables» : Option TVariables
  fetchMore : FetchMoreCallable TData TVariables

/-- `QueryResult<TData, TVariables>` (lines 84–92), extending
`ObservableQueryFields<TData, TVariables>`: `client`,
`data: TData | undefined`, `error?: ApolloError`, `loading: boolean`,
`networkStatus: NetworkStatus`, `called: boolean`. -/
structure QueryResult (TData TVariables : Type) extends ObservableQueryFields TData TVariables where
  client : ApolloClient TSAny
  data : Option TData
  error : Option ApolloError
  loading : Bool
  networkStatus : NetworkStatus
  called : Bool

/-- `QueryHookOptions<TData, TVariables>` (lines 100–103), extending
`QueryFunctionOptions` with an optional `query` document. -/
structure QueryHookOptions (TData TVariables : Type) extends QueryFunctionOptions TData TVariables where
  query : Option DocumentNode

/-- `LazyQueryHookOptions<TData, TVariables>` (lines 105–110): extends
`Omit<QueryFunctionOptions<TData, TVariables>, 'skip'>` — every member of
`QueryFunctionOptions` except `skip` — plus an optional `query` document. -/
structure LazyQueryHookOptions (TData TVariables : Type) extends BaseQueryOptions TVariables where
  displayName : Option String
  onCompleted : Option (TData → Unit)
  onError : Option (ApolloError → Unit)
  query : Option DocumentNode

/-- `QueryLazyOptions<TVariables>` (lines 127–130). -/
structure QueryLazyOptions (TVariables : Type) : Type where
  «variables» : Option TVariables
  context : Option Context

/-- `QueryTuple<TData, TVariables>` (lines 132–135): the pair of the lazy
trigger `(options?: QueryLazyOptions<TVariables>) => void` and the current
`QueryResult` snapshot. -/
def QueryTuple (TData TVariables : Type) : Type 1 :=
  (Option (QueryLazyOptions TVariables) → Unit) × QueryResult TData TVariables

/-! ## Mutation types (lines 137–207 of the source) -/

/-- `RefetchQueriesFunction` (lines 139–141):
`(...args: any[]) => Array<string | PureQueryOptions>`. The variadic
untyped parameters become a list of dynamic values. -/
def RefetchQueriesFunction : Type :=
  List TSAny → List (String ⊕ PureQueryOptions)

/-- The type of `optimisticResponse` in `BaseMutationOptions` (line 148):
`TData | ((vars: TVariables) => TData)`. -/
abbrev OptimisticResponseBase (TData TVariables : Type) : Type :=
  TData ⊕ (TVariables → TData)

/-- The type of `optimisticResponse` in `MutationFunctionOptions`
(line 167): `TData | ((vars: TVariables | {}) => TData)` — the function
variant's parameter is the union of the variables record with the empty
object type. -/
abbrev OptimisticResponseFn (TData TVariables : Type) : Type :=
  TData ⊕ ((TVariables ⊕ TSEmptyObject) → TData)

/-- `BaseMutationOptions<TData, TVariables>` (lines 143–160). -/
structure BaseMutationOptions (TData TVariables : Type) : Type where
  «variables» : Option TVariables
  optimisticResponse : Option (OptimisticResponseBase TData TVariables)
  refetchQueries :
    Option (List (String ⊕ PureQueryOptions) ⊕ RefetchQueriesFunction)
  awaitRefetchQueries : Option Bool
  errorPolicy : Option ErrorPolicy
  update : Option (MutationUpdaterFn TData)
  client : Option (ApolloClient TSObject)
  notifyOnNetworkStatusChange : Option Bool
  context : Option Context
  onCompleted : Option (TData → Unit)
  onError : Option (ApolloError → Unit)
  fetchPolicy : Option WatchQueryFetchPolicy
  ignoreResults : Option Bool

/-- `MutationFunctionOptions<TData, TVariables>` (lines 162–173). -/
structure MutationFunctionOptions (TData TVariables : Type) : Type where
  «variables» : Option TVariables
  optimisticResponse : Option (OptimisticResponseFn TData TVariables)
  refetchQueries :
    Option (List (String ⊕ PureQueryOptions) ⊕ RefetchQueriesFunction)
  awaitRefetchQueries : Option Bool
  update : Option (MutationUpdaterFn TData)
  context : Option Context
  fetchPolicy : Option WatchQueryFetchPolicy

/-- `MutationResult<TData>` (lines 175–181). -/
structure MutationResult (TData : Type) : Type where
  data : Option TData
  error : Option ApolloError
  loading : Bool
  called : Bool
  client : Option (ApolloClient TSObject)

/-- `MutationFunction<TData, TVariables>` (lines 183–188): the standalone
trigger type,
`(options?: MutationFunctionOptions<TData, TVariables>) =>
Promise<FetchResult<TData>>`. -/
def MutationFunction (TData TVariables : Type) : Type :=
  Option (MutationFunctionOptions TData TVariables) →
    Promise (FetchResult TData)

/-- `MutationTuple<TData, TVariables>` (lines 202–207): the pair of the
trigger `(options?: MutationFunctionOptions<TData, TVariables>) =>
Promise<ExecutionResult<TData>>` and the current `MutationResult<TData>`
snapshot. -/
def MutationTuple (TData TVariables : Type) : Type :=
  (Option (MutationFunctionOptions TData TVariables) →
      Promise (ExecutionResult TData)) ×
    MutationResult TData

/-! ## Subscription types (lines 209–255 of the source) -/

/-- `SubscriptionResult<TData>` (lines 231–235): exactly `loading:
boolean`, `data?: TData`, `error?: ApolloError`. -/
structure SubscriptionResult (TData : Type) : Type where
  loading : Bool
  data : Option TData
  error : Option ApolloError

/-- `OnSubscriptionDataOptions<TData>` (lines 211–214). -/
structure OnSubscriptionDataOptions (TData : Type) : Type where
  client : ApolloClient TSObject
  subscriptionData : SubscriptionResult TData

/-- The fields of `BaseSubscriptionOptions<TData, TVariables>`
(lines 216–229) other than `shouldResubscribe`. In the source
`shouldResubscribe`'s predicate variant receives the whole
`BaseSubscriptionOptions` bundle itself; that recursion is non-positive and
has no Lean inductive counterpart, so the predicate here receives the
bundle's other fields. -/
structure BaseSubscriptionOptionsCore (TData TVariables : Type) : Type where
  «variables» : Option TVariables
  fetchPolicy : Option FetchPolicy
  client : Option (ApolloClient TSObject)
  skip : Option Bool
  onSubscriptionData : Option (OnSubscriptionDataOptions TData → TSAny)
  onSubscriptionComplete : Option (Unit → Unit)

/-- `BaseSubscriptionOptions<TData, TVariables>` (lines 216–229):
the core fields plus `shouldResubscribe?: boolean | ((options) =>
boolean)`. -/
structure BaseSubscriptionOptions (TData TVariables : Type) : Type where
  core : BaseSubscriptionOptionsCore TData TVariables
  shouldResubscribe :
    Option (Bool ⊕ (BaseSubscriptionOptionsCore TData TVariables → Bool))

/-! ## A query binding's snapshot delivery, modelled from the spec

The react binding that constructs and delivers `QueryResult` snapshots
(the hooks themselves) is not part of the file under verification; only the
snapshot types are. The lifecycle below is modelled from the spec. -/

/-- Modelled from the spec: the kinds of request a query binding can have in
flight — variable change, pagination, poll tick, refetch (§3, §8). -/
inductive RequestKind : Type where
  | setVariablesReq : RequestKind
  | fetchMoreReq : RequestKind
  | pollReq : RequestKind
  | refetchReq : RequestKind
  deriving DecidableEq

/-- Modelled from the spec: the `networkStatus` a binding reports while a
request of the given kind is in flight (§3, §8). -/
def RequestKind.status : RequestKind → NetworkStatus
  | RequestKind.setVariablesReq => NetworkStatus.setVariables
  | RequestKind.fetchMoreReq => NetworkStatus.fetchMore
  | RequestKind.pollReq => NetworkStatus.poll
  | RequestKind.refetchReq => NetworkStatus.refetch

/-- Modelled from the spec: the events that drive one query binding's
snapshot — a request starts, or the outstanding request settles with data or
with an error (§4.1, §4.2). -/
inductive BindingEvent (TData : Type) : Type where
  | start : RequestKind → BindingEvent TData
  | settleOk : TData → BindingEvent TData
  | settleErr : ApolloError → BindingEvent TData

/-- Modelled from the spec: one query binding's state — the `QueryResult`
snapshot it currently delivers, plus a count of the requests it has ever
issued ("no request has ever been issued", §3). -/
structure LazyBindingState (TData TVariables : Type) : Type 1 where
  snapshot : QueryResult TData TVariables
  requestsIssued : Nat

/-- Modelled from the spec: before any activation the binding delivers
`loading = false`, `called = false`, no data and no error (§3, §4.1), and
has issued no request. -/
def initialBindingState {TData TVariables : Type}
    (controls : ObservableQueryFields TData TVariables)
    (client : ApolloClient TSAny) : LazyBindingState TData TVariables :=
  { snapshot :=
      { toObservableQueryFields := controls
        client := client
        data := none
        error := none
        loading := false
        networkStatus := NetworkStatus.idle
        called := false }
    requestsIssued := 0 }

/-- Modelled from the spec: the snapshot transition on one event. Starting a
request sets `loading = true` and `called = true` immediately (§4.2) and
reports the request kind's `networkStatus`; a settlement updates the
snapshot exactly once per outstanding request — `loading → settled` (§3) —
so settle events with no request outstanding change nothing. A successful
settlement stores the data with `networkStatus = ready`; a failed one stores
the error with `networkStatus = error` (§3, §7). -/
def stepBinding {TData TVariables : Type}
    (s : LazyBindingState TData TVariables) :
    BindingEvent TData → LazyBindingState TData TVariables
  | BindingEvent.start k =>
      { snapshot :=
          { s.snapshot with
              loading := true
              called := true
              networkStatus := k.status }
        requestsIssued := s.requestsIssued + 1 }
  | BindingEvent.settleOk d =>
      if s.snapshot.loading then
        { s with
            snapshot :=
              { s.snapshot with
                  loading := false
                  networkStatus := NetworkStatus.ready
                  data := some d
                  error := none } }
      else s
  | BindingEvent.settleErr e =>
      if s.snapshot.loading then
        { s with
            snapshot :=
              { s.snapshot with
                  loading := false
                  networkStatus := NetworkStatus.error
                  error := some e } }
      else s

/-- The binding states reachable from an initial state by delivery events. -/
inductive ReachableBinding {TData TVariables : Type} :
    LazyBindingState TData TVariables → Prop where
  | init (controls : ObservableQueryFields TData TVariables)
      (client : ApolloClient TSAny) :
      ReachableBinding (initialBindingState controls client)
  | step {s : LazyBindingState TData TVariables} (e : BindingEvent TData) :
      ReachableBinding s → ReachableBinding (stepBinding s e)

/-! ## Sample values (used by witnesses) -/

/-- A sample engine result, for building concrete control records. -/
def sampleAQR {TData : Type} : ApolloQueryResult TData :=
  { data := none
    errors := []
    loading := false
    networkStatus := NetworkStatus.ready }

/-- A concrete record of imperative controls over `Bool`-shaped data. -/
def sampleControls : ObservableQueryFields Bool Bool :=
  { startPolling := fun _ => ()
    stopPolling := fun _ => ()
    subscribeToMore := fun _ => fun _ => ()
    updateQuery := fun _ => ()
    refetch := fun _ => ⟨Except.ok sampleAQR⟩
    «variables» := none
    fetchMore :=
      { sameType := fun _ => ⟨Except.ok sampleAQR⟩
        crossType := fun _ _ _ => ⟨Except.ok sampleAQR⟩ } }

/-- A concrete client placeholder. -/
def sampleClient : ApolloClient TSAny := ⟨TSAny.null⟩

/-! ## Theorems -/

/-- C1: `MutationTuple` is the ordered pair whose first element is a trigger
taking an optional `MutationFunctionOptions` record and returning a
`Promise` of `ExecutionResult TData`, and whose second element is the
current `MutationResult TData` snapshot; the standalone `MutationFunction`
type is the same trigger shape returning a `Promise` of
`FetchResult TData`. -/
theorem mutationTuple_shape (TData TVariables : Type) :
    (∀ t : MutationTuple TData TVariables,
        t = ((t.1 : Option (MutationFunctionOptions TData TVariables) →
                Promise (ExecutionResult TData)),
             (t.2 : MutationResult TData))) ∧
    MutationFunction TData TVariables =
      (Option (MutationFunctionOptions TData TVariables) →
        Promise (FetchResult TData)) :=
  ⟨fun _ => rfl, rfl⟩

/-- C2: every `QueryResult` snapshot record carries the fields
`data : Option TData`, `error : Option ApolloError`, `loading : Bool`,
`networkStatus : NetworkStatus` and `called : Bool` (and nothing else beyond
the inherited imperative controls): the record is exactly the tuple of these
projections. -/
theorem queryResult_fields {TData TVariables : Type}
    (r : QueryResult TData TVariables) :
    r = { toObservableQueryFields := r.toObservableQueryFields
          client := r.client
          data := (r.data : Option TData)
          error := (r.error : Option ApolloError)
          loading := (r.loading : Bool)
          networkStatus := (r.networkStatus : NetworkStatus)
          called := (r.called : Bool) } :=
  rfl

/-- Strengthened induction invariant for reachable binding states: the
delivered-snapshot invariant together with "not yet called implies not
loading". -/
theorem reachableBinding_aux {TData TVariables : Type}
    (s : LazyBindingState TData TVariables) (h : ReachableBinding s) :
    (s.snapshot.loading = false ∧
        s.snapshot.networkStatus = NetworkStatus.error →
      s.snapshot.error.isSome) ∧
    (s.snapshot.called = false →
      s.snapshot.loading = false ∧ s.requestsIssued = 0 ∧
        s.snapshot.data = none ∧ s.snapshot.error = none) := by
  induction h with
  | init controls client =>
      exact ⟨fun hx => (nomatch hx.2), fun _ => ⟨rfl, rfl, rfl, rfl⟩⟩
  | @step s e hs ih =>
      cases e with
      | start k =>
          exact ⟨fun hx => (nomatch hx.1), fun hc => (nomatch hc)⟩
      | settleOk d =>
          cases hl : s.snapshot.loading with
          | true =>
              refine ⟨fun hx => ?_, fun hc => ?_⟩
              · have h2 := hx.2
                simp [stepBinding, hl] at h2
              · have h2 : s.snapshot.called = false := by
                  have := hc
                  simp [stepBinding, hl] at this
                  exact this
                have hl0 := (ih.2 h2).1
                rw [hl0] at hl
                exact (nomatch hl)
          | false =>
              have hstep : stepBinding s (BindingEvent.settleOk d) = s := by
                simp [stepBinding, hl]
              rw [hstep]
              exact ih
      | settleErr err =>
          cases hl : s.snapshot.loading with
          | true =>
              refine ⟨fun _ => ?_, fun hc => ?_⟩
              · simp [stepBinding, hl]
              · have h2 : s.snapshot.called = false := by
                  have := hc
                  simp [stepBinding, hl] at this
                  exact this
                have hl0 := (ih.2 h2).1
                rw [hl0] at hl
                exact (nomatch hl)
          | false =>
              have hstep : stepBinding s (BindingEvent.settleErr err) = s := by
                simp [stepBinding, hl]
              rw [hstep]
              exact ih

/-- C3: for every `QueryResult` snapshot a binding delivers (every reachable
binding state): if `loading = false` and `networkStatus = error` then the
`error` field is set, and if `called = false` then no request has ever been
issued and both `data` and `error` are unset. -/
theorem queryResult_delivered_invariant {TData TVariables : Type}
    (s : LazyBindingState TData TVariables) (h : ReachableBinding s) :
    (s.snapshot.loading = false ∧
        s.snapshot.networkStatus = NetworkStatus.error →
      s.snapshot.error.isSome) ∧
    (s.snapshot.called = false →
      s.requestsIssued = 0 ∧ s.snapshot.data = none ∧
        s.snapshot.error = none) :=
  ⟨(reachableBinding_aux s h).1,
    fun hc => ((reachableBinding_aux s h).2 hc).2⟩

/-- Witness for C3 at a concrete reachable state: the initial state of a
binding over `Bool`-shaped data and variables. -/
theorem queryResult_delivered_invariant_witness :
    ((initialBindingState sampleControls sampleClient).snapshot.loading =
          false ∧
        (initialBindingState sampleControls
              sampleClient).snapshot.networkStatus =
          NetworkStatus.error →
      (initialBindingState sampleControls
            sampleClient).snapshot.error.isSome) ∧
    ((initialBindingState sampleControls sampleClient).snapshot.called =
        false →
      (initialBindingState sampleControls sampleClient).requestsIssued = 0 ∧
        (initialBindingState sampleControls sampleClient).snapshot.data =
          none ∧
        (initialBindingState sampleControls sampleClient).snapshot.error =
          none) :=
  queryResult_delivered_invariant
    (initialBindingState sampleControls sampleClient)
    (ReachableBinding.init sampleControls sampleClient)

/-- C4: the `fetchMore` operation exposed on a `QueryResult` admits exactly
two call shapes: a same-type call over the binding's own
`TData`/`TVariables` returning a `Promise` of `ApolloQueryResult TData`,
and a cross-type call that may additionally carry a `DocumentNode` and is
typed over fresh `TData2`/`TVariables2`, returning a `Promise` of
`ApolloQueryResult TData2`. -/
theorem fetchMore_dual_signatures {TData TVariables : Type}
    (r : QueryResult TData TVariables) :
    r.fetchMore =
      { sameType :=
          (r.fetchMore.sameType :
            FetchMoreQueryOptions TVariables ×
                FetchMoreOptions TData TVariables →
              Promise (ApolloQueryResult TData))
        crossType :=
          (r.fetchMore.crossType :
            (TData2 TVariables2 : Type) →
              Option DocumentNode × FetchMoreQueryOptions TVariables2 ×
                  FetchMoreOptions TData2 TVariables2 →
              Promise (ApolloQueryResult TData2)) } :=
  rfl

/-- C5: a `SubscriptionResult` snapshot consists of exactly `loading`,
optional `data` and optional `error` — it is in bijection with the bare
triple of those fields, so it exposes no imperative controls (no `refetch`,
no `fetchMore`). -/
theorem subscriptionResult_shape (TData : Type) :
    Nonempty
      (SubscriptionResult TData ≃ Bool × Option TData × Option ApolloError) :=
  ⟨{ toFun := fun r => (r.loading, r.data, r.error)
     invFun := fun p => ⟨p.1, p.2.1, p.2.2⟩
     left_inv := fun _ => rfl
     right_inv := fun _ => rfl }⟩

/-- C6 counterexample: the claim "in every mutation options bundle
`optimisticResponse` is either a literal `TData` value or a function from
the mutation's variables to `TData`" fails for `MutationFunctionOptions` at
the concrete instance `TData = Bool`, `TVariables = Empty`: the field's
actual type is `Option (TData ⊕ ((TVariables | {}) → TData))` — the
function variant's parameter is the union of the variables with the empty
object — and that type is not the claimed
`Option (TData ⊕ (TVariables → TData))`. -/
theorem mutationFunctionOptions_optimisticResponse_cex :
    Option (OptimisticResponseFn Bool Empty) ≠
      Option (OptimisticResponseBase Bool Empty) := by
  intro h
  have hc :
      Fintype.card (Option (OptimisticResponseFn Bool Empty)) =
        Fintype.card (Option (OptimisticResponseBase Bool Empty)) :=
    Fintype.card_congr (Equiv.cast h)
  simp [Fintype.card_option, Fintype.card_sum, Fintype.card_fun] at hc

/-- C6 amended: in `BaseMutationOptions`, `optimisticResponse` is either a
literal `TData` or a function `TVariables → TData`; in
`MutationFunctionOptions` the function variant's parameter is
`TVariables | {}` (it must also accept the empty object); in both
bundles no other shape is accepted. -/
theorem optimisticResponse_shapes (TData TVariables : Type) :
    OptimisticResponseBase TData TVariables =
        (TData ⊕ (TVariables → TData)) ∧
    OptimisticResponseFn TData TVariables =
        (TData ⊕ ((TVariables ⊕ TSEmptyObject) → TData)) ∧
    (∀ (o : BaseMutationOptions TData TVariables)
        (v : Option (OptimisticResponseBase TData TVariables)),
        ({ o with optimisticResponse := v }).optimisticResponse = v) ∧
    (∀ (o : MutationFunctionOptions TData TVariables)
        (v : Option (OptimisticResponseFn TData TVariables)),
        ({ o with optimisticResponse := v }).optimisticResponse = v) :=
  ⟨rfl, rfl, fun _ _ => rfl, fun _ _ => rfl⟩

/-- Modelled from the spec: after the mutation settles, the binding resolves
the `refetchQueries` option into the list of query descriptors to
re-execute (§4.2): a static list is used as is, and a
`RefetchQueriesFunction` is applied to the mutation's result, passed as the
function's dynamic argument list (`encode` is the caller's embedding of the
typed result into the dynamic world). The resolving code (the mutation
binding) is not part of the file under verification. -/
def resolveRefetchQueries {TData : Type}
    (encode : ExecutionResult TData → TSAny)
    (rq : List (String ⊕ PureQueryOptions) ⊕ RefetchQueriesFunction)
    (result : ExecutionResult TData) : List (String ⊕ PureQueryOptions) :=
  match rq with
  | Sum.inl l => l
  | Sum.inr f => f [encode result]

/-- C7: the `refetchQueries` option of a mutation is either a static list of
query descriptors — each a string name or a `PureQueryOptions` record — or
a `RefetchQueriesFunction` computing such a list; resolving the option
against the mutation's result returns the static list unchanged and applies
the function to the result. -/
theorem refetchQueries_shape (TData TVariables : Type) :
    RefetchQueriesFunction =
        (List TSAny → List (String ⊕ PureQueryOptions)) ∧
    (∀ (o : BaseMutationOptions TData TVariables)
        (v : Option
          (List (String ⊕ PureQueryOptions) ⊕ RefetchQueriesFunction)),
        ({ o with refetchQueries := v }).refetchQueries = v) ∧
    (∀ (encode : ExecutionResult TData → TSAny)
        (l : List (String ⊕ PureQueryOptions))
        (result : ExecutionResult TData),
        resolveRefetchQueries encode (Sum.inl l) result = l) ∧
    (∀ (encode : ExecutionResult TData → TSAny)
        (f : RefetchQueriesFunction) (result : ExecutionResult TData),
        resolveRefetchQueries encode (Sum.inr f) result = f [encode result]) :=
  ⟨rfl, fun _ _ => rfl, fun _ _ _ => rfl, fun _ _ _ => rfl⟩

/-- C8: every configuration key of §6 is present, with its declared type, in
the options bundle of the binding whose contract names it — the query bundle
(`QueryFunctionOptions`, with its `BaseQueryOptions` part) carries
`fetchPolicy`, `errorPolicy`, `pollInterval`, `skip`,
`notifyOnNetworkStatusChange`, `returnPartialData`, `onCompleted`,
`onError`; the mutation bundle (`BaseMutationOptions`) carries
`optimisticResponse`, `refetchQueries`, `awaitRefetchQueries`, `update`,
`ignoreResults`, `errorPolicy`, `onCompleted`, `onError`; the subscription
bundle (`BaseSubscriptionOptions`) carries `skip`, `shouldResubscribe`,
`onSubscriptionData`, `onSubscriptionComplete`. Each key is witnessed by
its update/projection round trip at that bundle. -/
theorem optionBundles_config_keys (TData TVariables : Type) :
    (∀ (o : QueryFunctionOptions TData TVariables)
        (v : Option WatchQueryFetchPolicy),
        ({ o with fetchPolicy := v }).fetchPolicy = v) ∧
    (∀ (o : QueryFunctionOptions TData TVariables) (v : Option ErrorPolicy),
        ({ o with errorPolicy := v }).errorPolicy = v) ∧
    (∀ (o : QueryFunctionOptions TData TVariables) (v : Option Nat),
        ({ o with pollInterval := v }).pollInterval = v) ∧
    (∀ (o : QueryFunctionOptions TData TVariables) (v : Option Bool),
        ({ o with skip := v }).skip = v) ∧
    (∀ (o : QueryFunctionOptions TData TVariables) (v : Option Bool),
        ({ o with notifyOnNetworkStatusChange := v
            }).notifyOnNetworkStatusChange = v) ∧
    (∀ (o : QueryFunctionOptions TData TVariables) (v : Option Bool),
        ({ o with returnPartialData := v }).returnPartialData = v) ∧
    (∀ (o : QueryFunctionOptions TData TVariables)
        (v : Option (TData → Unit)),
        ({ o with onCompleted := v }).onCompleted = v) ∧
    (∀ (o : QueryFunctionOptions TData TVariables)
        (v : Option (ApolloError → Unit)),
        ({ o with onError := v }).onError = v) ∧
    (∀ (o : BaseMutationOptions TData TVariables)
        (v : Option (OptimisticResponseBase TData TVariables)),
        ({ o with optimisticResponse := v }).optimisticResponse = v) ∧
    (∀ (o : BaseMutationOptions TData TVariables)
        (v : Option
          (List (String ⊕ PureQueryOptions) ⊕ RefetchQueriesFunction)),
        ({ o with refetchQueries := v }).refetchQueries = v) ∧
    (∀ (o : BaseMutationOptions TData TVariables) (v : Option Bool),
        ({ o with awaitRefetchQueries := v }).awaitRefetchQueries = v) ∧
    (∀ (o : BaseMutationOptions TData TVariables)
        (v : Option (MutationUpdaterFn TData)),
        ({ o with update := v }).update = v) ∧
    (∀ (o : BaseMutationOptions TData TVariables) (v : Option Bool),
        ({ o with ignoreResults := v }).ignoreResults = v) ∧
    (∀ (o : BaseMutationOptions TData TVariables) (v : Option ErrorPolicy),
        ({ o with errorPolicy := v }).errorPolicy = v) ∧
    (∀ (o : BaseMutationOptions TData TVariables)
        (v : Option (TData → Unit)),
        ({ o with onCompleted := v }).onCompleted = v) ∧
    (∀ (o : BaseMutationOptions TData TVariables)
        (v : Option (ApolloError → Unit)),
        ({ o with onError := v }).onError = v) ∧
    (∀ (o : BaseSubscriptionOptions TData TVariables) (v : Option Bool),
        ({ o with core := { o.core with skip := v } }).core.skip = v) ∧
    (∀ (o : BaseSubscriptionOptions TData TVariables)
        (v : Option
          (Bool ⊕ (BaseSubscriptionOptionsCore TData TVariables → Bool))),
        ({ o with shouldResubscribe := v }).shouldResubscribe = v) ∧
    (∀ (o : BaseSubscriptionOptions TData TVariables)
        (v : Option (OnSubscriptionDataOptions TData → TSAny)),
        ({ o with core := { o.core with onSubscriptionData := v }
            }).core.onSubscriptionData = v) ∧
    (∀ (o : BaseSubscriptionOptions TData TVariables)
        (v : Option (Unit → Unit)),
        ({ o with core := { o.core with onSubscriptionComplete := v }
            }).core.onSubscriptionComplete = v) :=
  ⟨fun _ _ => rfl, fun _ _ => rfl, fun _ _ => rfl, fun _ _ => rfl,
    fun _ _ => rfl, fun _ _ => rfl, fun _ _ => rfl, fun _ _ => rfl,
    fun _ _ => rfl, fun _ _ => rfl, fun _ _ => rfl, fun _ _ => rfl,
    fun _ _ => rfl, fun _ _ => rfl, fun _ _ => rfl, fun _ _ => rfl,
    fun _ _ => rfl, fun _ _ => rfl, fun _ _ => rfl, fun _ _ => rfl⟩

/-- C9: the lazy-query options bundle statically excludes the `skip` key —
`LazyQueryHookOptions` paired with a skip field is in bijection with
`QueryFunctionOptions` paired with a query field (it is exactly the query
bundle minus `skip` plus `query`) — whereas the ordinary query bundle
`QueryFunctionOptions` accepts `skip`. -/
theorem lazyQueryOptions_exclude_skip (TData TVariables : Type) :
    Nonempty
      ((QueryFunctionOptions TData TVariables × Option DocumentNode) ≃
        (LazyQueryHookOptions TData TVariables × Option Bool)) ∧
    (∀ (o : QueryFunctionOptions TData TVariables) (v : Option Bool),
        ({ o with skip := v }).skip = v) :=
  ⟨⟨{ toFun := fun p =>
        ({ toBaseQueryOptions := p.1.toBaseQueryOptions
           displayName := p.1.displayName
           onCompleted := p.1.onCompleted
           onError := p.1.onError
           query := p.2 }, p.1.skip)
      invFun := fun p =>
        ({ toBaseQueryOptions := p.1.toBaseQueryOptions
           displayName := p.1.displayName
           skip := p.2
           onCompleted := p.1.onCompleted
           onError := p.1.onError }, p.1.query)
      left_inv := fun _ => rfl
      right_inv := fun _ => rfl }⟩, fun _ _ => rfl⟩

/-- C10: the lazy-query trigger in `QueryTuple` returns `Unit` (void) — the
caller receives no promise of the execution's result — whereas the
`MutationTuple` trigger returns a `Promise` of the execution result, and
those two return types are distinct. -/
theorem queryTuple_trigger_void (TData TVariables : Type) :
    QueryTuple TData TVariables =
        ((Option (QueryLazyOptions TVariables) → Unit) ×
          QueryResult TData TVariables) ∧
    MutationTuple TData TVariables =
        ((Option (MutationFunctionOptions TData TVariables) →
            Promise (ExecutionResult TData)) ×
          MutationResult TData) ∧
    (Unit : Type) ≠ Promise (ExecutionResult TData) := by
  refine ⟨rfl, rfl, ?_⟩
  intro h
  have e : Promise (ExecutionResult TData) ≃ Unit := Equiv.cast h.symm
  have h2 :
      (⟨Except.error TSAny.null⟩ : Promise (ExecutionResult TData)) =
        ⟨Except.ok ⟨none, none, none⟩⟩ :=
    e.injective (Subsingleton.elim _ _)
  simp at h2
